import Mathlib

/-!
Shallow embedding of the globstar command-line tool (src/globstar.js).

The tool expands glob patterns appearing among command arguments and then
spawns the target command, either once with every match concatenated
(bulk mode) or once per match of a single pattern (each mode).

External collaborators are modelled abstractly, following the source:
a filesystem matcher `fs : String -> List String` stands for the glob
engine applied with the current options (the `nonull` no-match policy,
which the source sets explicitly at each call site, is kept explicit);
two predicates `lg` and `ls` stand for the is-glob library in its
non-strict mode (used by the source to count glob tokens) and its
default strict mode (used by the source to locate the glob token);
`child : List String -> Option JsError` stands for the single value a
spawned child delivers to its once-only completion callback.
-/

namespace Globstar

/-- Failure records, mirroring the Error values the source constructs:
a configuration error (plain Error thrown for invalid input, or a yargs
failure), a SpawnError carrying the child exit status, and a generic
error (for example the error event of a child that failed to start). -/
inductive JsError where
  | configError (msg : String)
  | spawnError (status : Nat)
  | genericError (msg : String)
deriving DecidableEq, Repr

/-- The glob-options bag handed to the glob engine. `extra` models the
remaining pass-through keys of the loosely typed options object that
survive the flag filter in parseArgv. -/
structure GlobOpts where
  nodir : Bool
  ignore : List String
  nonull : Bool
  extra : List (String × String)
deriving DecidableEq, Repr

/-- The parsed flag structure produced by the yargs collaborator before
the translation step of parseArgv: positionals, recognized flags, and
the effective initial value of the nonull key (false when absent, since
the glob engine defaults nonull to off). -/
structure ParsedArgs where
  positional : List String
  nodir : Bool
  ignore : Option (List String)
  node : Bool
  verbose : Nat
  each : Bool
  nonull : Bool
  extra : List (String × String)
deriving DecidableEq, Repr

/-- The invocation record parseArgv returns on success. -/
structure Argv where
  logLevel : String
  each : Bool
  cmd : Option String
  args : List String
  globOpts : GlobOpts
deriving DecidableEq, Repr

/-- Outcome of one whole run: the argument lists passed to spawnCommand
in order, the command, the process exit code, and the diagnostic log
entries produced by the error handler as (level, text) pairs. -/
structure RunOutcome where
  cmd : Option String
  spawned : List (List String)
  exit : Nat
  logs : List (String × String)
deriving DecidableEq, Repr

/-- Model of glob.sync: `fs pattern` is the ordered list of filesystem
matches of the pattern under the non-nonull options; with nonull set, a
pattern with no matches resolves to itself. -/
def globSync (fs : String → List String) (nonull : Bool) (pattern : String) : List String :=
  let ms := fs pattern
  if ms.isEmpty && nonull then [pattern] else ms

/-- Model of JavaScript Array.prototype.findIndex, with none for -1. -/
def jsFindIndex (q : String → Bool) : List String → Option Nat
  | [] => none
  | a :: l => if q a then some 0 else (jsFindIndex q l).map (· + 1)

/-- globArgs (bulk-mode builder): sets nonull on the options object (a
mutation of the shared options bag, returned as the second component),
expands every token and flattens with reduce/concat from the empty
list. -/
def globArgs (fs : String → List String) (args : List String) (opts : GlobOpts) :
    List String × GlobOpts :=
  let opts2 : GlobOpts := { opts with nonull := true }
  ((args.map (fun a => globSync fs opts2.nonull a)).foldl (fun p c => p ++ c) [], opts2)

/-- globArgsEach (each-mode builder): sets nonull, counts glob tokens
with the non-strict is-glob test, rejects two or more, passes the token
list through unchanged when there is none, and otherwise substitutes
each match of the token located by the strict is-glob test. When the
two tests disagree the located index is -1 and the glob engine throws
on the undefined pattern, modelled as a generic error. -/
def globArgsEach (lg ls : String → Bool) (fs : String → List String)
    (args : List String) (opts : GlobOpts) :
    Except JsError (List (List String)) × GlobOpts :=
  let opts2 : GlobOpts := { opts with nonull := true }
  let globCount := args.countP lg
  if 1 < globCount then
    (Except.error (JsError.configError "each cannot accept multiple globs"), opts2)
  else if globCount = 0 then
    (Except.ok [args], opts2)
  else
    match jsFindIndex ls args with
    | none => (Except.error (JsError.genericError "glob pattern string required"), opts2)
    | some i =>
      (Except.ok ((globSync fs opts2.nonull (args.getD i "")).map (fun v => args.set i v)),
        opts2)

/-- Events a spawned child can emit: the error event (spawn failure)
and the close event whose status is a number or null (none models the
null status of a signal-terminated child). -/
inductive ChildEvent where
  | error (msg : String)
  | close (status : Option Nat)
deriving DecidableEq, Repr

/-- The close handler of spawnCommand: truthy status yields a
SpawnError carrying that status, otherwise success. -/
def onCloseCb (status : Option Nat) : Option JsError :=
  match status with
  | some (s + 1) => some (JsError.spawnError (s + 1))
  | _ => none

/-- The callback invocations the two event handlers of spawnCommand
would make, one per emitted event, before the once-only wrapper. -/
def handlerCalls (events : List ChildEvent) : List (Option JsError) :=
  events.map fun ev =>
    match ev with
    | ChildEvent.error m => some (JsError.genericError m)
    | ChildEvent.close st => onCloseCb st

/-- The onetime wrapper: only the first callback invocation goes
through. -/
def onetime (calls : List (Option JsError)) : List (Option JsError) :=
  calls.take 1

/-- spawnCommand, viewed through the values actually delivered to its
completion callback given the event stream the child emits. -/
def spawnCommand (events : List ChildEvent) : List (Option JsError) :=
  onetime (handlerCalls events)

/-- The exit code the error handler derives from an error:
err.status if truthy, else 1. -/
def errExitCode : JsError → Nat
  | JsError.spawnError s => if s = 0 then 1 else s
  | _ => 1

/-- Exit code of a run outcome: 0 on success, errExitCode otherwise. -/
def exitOf : Option JsError → Nat
  | none => 0
  | some e => errExitCode e

/-- Message carried by an error value. -/
def errMessage : JsError → String
  | JsError.configError m => m
  | JsError.genericError m => m
  | JsError.spawnError s => "Exit status " ++ toString s

/-- Full structured rendering of an error, as logged at silly level. -/
def errFullDetail : JsError → String
  | JsError.configError m => "Error: " ++ m
  | JsError.genericError m => "Error: " ++ m
  | JsError.spawnError s => "SpawnError: Exit status " ++ toString s

/-- Diagnostic entries the error handler emits for a failure: none for
a SpawnError, otherwise the error (full detail only at silly level),
the help hint and the version banner. -/
def errorLogs (logLevel : String) (e : JsError) : List (String × String) :=
  match e with
  | JsError.spawnError _ => []
  | _ =>
    [("error", if logLevel = "silly" then errFullDetail e else errMessage e),
     ("info", "Try --help for more information"),
     ("verbose", "globstar")]

/-- parseArgv translation step on a successfully parsed flag set:
clamps the verbosity count to 0..2, derives the log level, appends the
node-modules ignore pattern when the node flag is set, and splits the
positionals into command and argument template. -/
def parseArgv (p : ParsedArgs) : Argv :=
  let verbose := 2 - (2 - p.verbose)
  let logLevel := ["info", "verbose", "silly"].getD verbose "info"
  let baseIgnore := p.ignore.getD []
  let ignore := if p.node then baseIgnore ++ ["**/node_modules/**"] else baseIgnore
  { logLevel := logLevel
    each := p.each
    cmd := p.positional.head?
    args := p.positional.tail
    globOpts := { nodir := p.nodir, ignore := ignore, nonull := p.nonull, extra := p.extra } }

/-- The awaited for-loop of mainEach: spawn each argument list in
order, observing the completion value of one child before starting the
next, stopping at the first failure. Returns the argument lists
actually spawned and the final error, if any. -/
def runEachLoop (child : List String → Option JsError) :
    List (List String) → List (List String) × Option JsError
  | [] => ([], none)
  | v :: vs =>
    match child v with
    | some e => ([v], some e)
    | none =>
      let r := runEachLoop child vs
      (v :: r.1, r.2)

/-- mainEach: build the per-match argument lists, then run them
sequentially; a builder error reaches the error handler with no child
spawned. -/
def mainEach (lg ls : String → Bool) (fs : String → List String)
    (child : List String → Option JsError) (args : List String) (opts : GlobOpts) :
    List (List String) × Option JsError :=
  match (globArgsEach lg ls fs args opts).1 with
  | Except.error e => ([], some e)
  | Except.ok values => runEachLoop child values

/-- The control-flow core of main: a yargs parse failure short-circuits
to the error handler; otherwise each mode runs mainEach and bulk mode
spawns the command once with the flattened argument list. Returns the
spawned argument lists and the error handed to the error handler. -/
def mainRun (lg ls : String → Bool) (fs : String → List String)
    (child : List String → Option JsError) (parseErr : Option String) (p : ParsedArgs) :
    List (List String) × Option JsError :=
  match parseErr with
  | some m => ([], some (JsError.configError m))
  | none =>
    let argv := parseArgv p
    if argv.each then
      mainEach lg ls fs child argv.args argv.globOpts
    else
      let bulk := (globArgs fs argv.args argv.globOpts).1
      ([bulk], child bulk)

/-- main: the whole invocation, from parsed flags to exit code and
diagnostics. -/
def main (lg ls : String → Bool) (fs : String → List String)
    (child : List String → Option JsError) (parseErr : Option String) (p : ParsedArgs) :
    RunOutcome :=
  let argv := parseArgv p
  let r := mainRun lg ls fs child parseErr p
  { cmd := argv.cmd
    spawned := r.1
    exit := exitOf r.2
    logs :=
      match r.2 with
      | none => []
      | some e => errorLogs argv.logLevel e }

/- Witness inputs: small concrete instances of the abstract
collaborators, used to evaluate the theorems below on closed data. -/

/-- A concrete is-glob test recognizing two starred tokens. -/
def wGlob2 : String → Bool := fun s => s == "a*" || s == "b*"

/-- A concrete is-glob test recognizing a single star token. -/
def wStar : String → Bool := fun s => s == "*"

/-- A concrete filesystem matcher with two matches for any pattern. -/
def wFs : String → List String := fun _ => ["m1", "m2"]

/-- A concrete filesystem matcher with three matches for any pattern. -/
def wFs3 : String → List String := fun _ => ["a", "b", "c"]

/-- A concrete filesystem matcher with no matches at all. -/
def wFsEmpty : String → List String := fun _ => []

/-- A child that always succeeds. -/
def wChildOk : List String → Option JsError := fun _ => none

/-- A child that always exits with status 3. -/
def wChild3 : List String → Option JsError := fun _ => some (JsError.spawnError 3)

/-- A child that fails with status 2 exactly on the argument list b. -/
def wChildFailB : List String → Option JsError :=
  fun v => if v = ["b"] then some (JsError.spawnError 2) else none

/-- Default empty glob options. -/
def wOpts : GlobOpts := { nodir := false, ignore := [], nonull := false, extra := [] }

/-- Parsed flags for an each-mode run with two glob tokens. -/
def wPTwoGlobs : ParsedArgs :=
  { positional := ["c", "a*", "b*"], nodir := false, ignore := none, node := false
    verbose := 0, each := true, nonull := false, extra := [] }

/-- Parsed flags for a bulk-mode run with one literal token. -/
def wPBulk : ParsedArgs :=
  { positional := ["c", "a"], nodir := false, ignore := none, node := false
    verbose := 0, each := false, nonull := false, extra := [] }

/- Helper lemmas. -/

theorem foldl_append_eq_flatten (L : List (List String)) (acc : List String) :
    L.foldl (fun p c => p ++ c) acc = acc ++ L.flatten := by
  induction L generalizing acc with
  | nil => simp
  | cons x xs ih => simp [ih, List.append_assoc]

theorem jsFindIndex_some_spec (q : String → Bool) :
    ∀ (l : List String) (i : Nat), jsFindIndex q l = some i →
      i < l.length ∧ q (l.getD i "") = true := by
  intro l
  induction l with
  | nil => intro i h; simp [jsFindIndex] at h
  | cons a t ih =>
    intro i h
    by_cases hq : q a
    · simp [jsFindIndex, hq] at h
      subst h
      exact ⟨Nat.succ_pos _, by simpa using hq⟩
    · simp [jsFindIndex, hq] at h
      obtain ⟨j, hj, hji⟩ := h
      have hspec := ih j hj
      subst hji
      exact ⟨Nat.succ_lt_succ hspec.1, by simpa using hspec.2⟩

theorem runEachLoop_all_ok (child : List String → Option JsError) :
    ∀ values : List (List String), (∀ v ∈ values, child v = none) →
      runEachLoop child values = (values, none) := by
  intro values
  induction values with
  | nil => intro _; rfl
  | cons v vs ih =>
    intro h
    have hv : child v = none := h v (by simp)
    have hrest := ih (fun w hw => h w (by simp [hw]))
    simp [runEachLoop, hv, hrest]

theorem runEachLoop_first_fail (child : List String → Option JsError) :
    ∀ (values : List (List String)) (k : Nat) (e : JsError),
      k < values.length →
      (∀ j, j < k → child (values.getD j []) = none) →
      child (values.getD k []) = some e →
      runEachLoop child values = (values.take (k + 1), some e) := by
  intro values
  induction values with
  | nil => intro k e hk _ _; simp at hk
  | cons v vs ih =>
    intro k e hk hpre hfail
    cases k with
    | zero =>
      have hv : child v = some e := by simpa using hfail
      simp [runEachLoop, hv]
    | succ k =>
      have hv : child v = none := by simpa using hpre 0 (Nat.succ_pos k)
      have ih2 := ih k e (Nat.lt_of_succ_lt_succ hk)
        (fun j hj => by simpa using hpre (j + 1) (Nat.succ_lt_succ hj))
        (by simpa using hfail)
      simp [runEachLoop, hv, ih2]

/- Claim theorems. -/

/-- Claim C5: for every argument token, expansion (as performed by the
builders, which force nonull) never yields an empty sequence; a pattern
with zero filesystem matches expands to the single-element sequence
containing the literal pattern; a token that the matcher resolves to at
most itself (the behavior of the glob engine on a token without glob
metacharacters) expands to itself; and the bulk builder applied to the
single token performs exactly this expansion. -/
theorem c5_expansion_never_empty (fs : String → List String) (p : String) (opts : GlobOpts) :
    globSync fs true p ≠ []
  ∧ (fs p = [] → globSync fs true p = [p])
  ∧ (fs p = [] ∨ fs p = [p] → globSync fs true p = [p])
  ∧ (globArgs fs [p] opts).1 = globSync fs true p := by
  refine ⟨?_, ?_, ?_, ?_⟩
  · cases hms : fs p with
    | nil => simp [globSync, hms]
    | cons a l => simp [globSync, hms]
  · intro h; simp [globSync, h]
  · rintro (h | h) <;> simp [globSync, h]
  · show ([globSync fs true p]).foldl (fun a c => a ++ c) [] = globSync fs true p
    simp [foldl_append_eq_flatten]

/-- Claim C5 witness: a pattern with no filesystem matches expands to
its own literal text, and the bulk builder on that single token agrees. -/
theorem c5_witness :
    wFsEmpty "a" = []
  ∧ globSync wFsEmpty true "a" = ["a"]
  ∧ (globArgs wFsEmpty ["a"] wOpts).1 = globSync wFsEmpty true "a" :=
  ⟨rfl, (c5_expansion_never_empty wFsEmpty "a" wOpts).2.1 rfl,
    (c5_expansion_never_empty wFsEmpty "a" wOpts).2.2.2⟩

/-- Claim C6: the bulk-mode argument list is the concatenation, in
token order, of each token's expansion, and its length is the sum of
the individual expansion lengths. -/
theorem c6_bulk_concat (fs : String → List String) (args : List String) (opts : GlobOpts) :
    (globArgs fs args opts).1 = (args.map (fun a => globSync fs true a)).flatten
  ∧ ((globArgs fs args opts).1).length
      = (args.map (fun a => (globSync fs true a).length)).sum := by
  have h1 : (globArgs fs args opts).1 = (args.map (fun a => globSync fs true a)).flatten := by
    show (args.map (fun a => globSync fs true a)).foldl (fun p c => p ++ c) [] = _
    simp [foldl_append_eq_flatten]
  refine ⟨h1, ?_⟩
  rw [h1, List.length_flatten, List.map_map]
  rfl

/-- Claim C2: the each-mode builder returns the token list unchanged
(as a single variant) when no token is a glob, and when exactly one
token is a glob (located at index i by the strict test), it returns one
variant per match, each equal to the input with only position i
replaced by that match, in match order. -/
theorem c2_each_builder_shape (lg ls : String → Bool) (fs : String → List String)
    (args : List String) (opts : GlobOpts) :
    (args.countP lg = 0 → (globArgsEach lg ls fs args opts).1 = Except.ok [args])
  ∧ (∀ i, args.countP lg = 1 → jsFindIndex ls args = some i →
      i < args.length
    ∧ ls (args.getD i "") = true
    ∧ (globArgsEach lg ls fs args opts).1 =
        Except.ok ((globSync fs true (args.getD i "")).map (fun v => args.set i v))) := by
  constructor
  · intro h0
    simp [globArgsEach, h0]
  · intro i h1 hf
    have hspec := jsFindIndex_some_spec ls args i hf
    refine ⟨hspec.1, hspec.2, ?_⟩
    simp [globArgsEach, h1, hf]

/-- Claim C2 witness: one glob token among three, two matches, giving
two variants that differ from the input only at the glob position. -/
theorem c2_witness :
    (["x", "a*", "y"].countP wGlob2 = 1)
  ∧ (jsFindIndex wGlob2 ["x", "a*", "y"] = some 1)
  ∧ (globArgsEach wGlob2 wGlob2 wFs ["x", "a*", "y"] wOpts).1
      = Except.ok [["x", "m1", "y"], ["x", "m2", "y"]]
  ∧ (["x", "y"].countP wGlob2 = 0)
  ∧ (globArgsEach wGlob2 wGlob2 wFs ["x", "y"] wOpts).1 = Except.ok [["x", "y"]] := by
  refine ⟨by decide, by decide, ?_, by decide, ?_⟩
  · exact ((c2_each_builder_shape wGlob2 wGlob2 wFs ["x", "a*", "y"] wOpts).2 1
      (by decide) (by decide)).2.2
  · exact (c2_each_builder_shape wGlob2 wGlob2 wFs ["x", "y"] wOpts).1 (by decide)

/-- Claim C1: in each mode, two or more glob tokens make the run fail
with the configuration error message, before any expansion (the
outcome does not depend on the filesystem matcher) and before any
subprocess (no argument list is spawned and the outcome does not
depend on the child), and the process exit code is 1. -/
theorem c1_each_multiglob_rejected (lg ls : String → Bool) (fs : String → List String)
    (child : List String → Option JsError) (p : ParsedArgs)
    (he : p.each = true) (h2 : 2 ≤ (parseArgv p).args.countP lg) :
    (mainRun lg ls fs child none p).2
      = some (JsError.configError "each cannot accept multiple globs")
  ∧ (main lg ls fs child none p).spawned = []
  ∧ (main lg ls fs child none p).exit = 1
  ∧ ∀ (fs2 : String → List String) (child2 : List String → Option JsError),
      main lg ls fs2 child2 none p = main lg ls fs child none p := by
  have hlt : 1 < (parseArgv p).args.countP lg := lt_of_lt_of_le one_lt_two h2
  have hpe : (parseArgv p).each = true := he
  have hga : ∀ fs0 : String → List String,
      (globArgsEach lg ls fs0 (parseArgv p).args (parseArgv p).globOpts).1
        = Except.error (JsError.configError "each cannot accept multiple globs") := by
    intro fs0
    simp [globArgsEach, hlt]
  have hrun : ∀ (fs0 : String → List String) (child0 : List String → Option JsError),
      mainRun lg ls fs0 child0 none p
        = ([], some (JsError.configError "each cannot accept multiple globs")) := by
    intro fs0 child0
    simp [mainRun, hpe, mainEach, hga fs0]
  have hmain : ∀ (fs0 : String → List String) (child0 : List String → Option JsError),
      main lg ls fs0 child0 none p
        = { cmd := (parseArgv p).cmd, spawned := [], exit := 1,
            logs := errorLogs (parseArgv p).logLevel
              (JsError.configError "each cannot accept multiple globs") } := by
    intro fs0 child0
    simp [main, hrun fs0 child0, exitOf, errExitCode]
  refine ⟨hrun fs child ▸ rfl, ?_, ?_, ?_⟩
  · rw [hmain fs child]
  · rw [hmain fs child]
  · intro fs2 child2
    rw [hmain fs2 child2, hmain fs child]

/-- Claim C1 witness: an each-mode run whose two argument tokens are
both glob patterns spawns nothing and exits with code 1. -/
theorem c1_witness :
    wPTwoGlobs.each = true
  ∧ 2 ≤ (parseArgv wPTwoGlobs).args.countP wGlob2
  ∧ (mainRun wGlob2 wGlob2 wFs wChildOk none wPTwoGlobs).2
      = some (JsError.configError "each cannot accept multiple globs")
  ∧ (main wGlob2 wGlob2 wFs wChildOk none wPTwoGlobs).spawned = []
  ∧ (main wGlob2 wGlob2 wFs wChildOk none wPTwoGlobs).exit = 1 := by
  have h := c1_each_multiglob_rejected wGlob2 wGlob2 wFs wChildOk wPTwoGlobs rfl (by decide)
  exact ⟨rfl, by decide, h.1, h.2.1, h.2.2.1⟩

/-- Claim C3: in each mode the expanded argument lists run strictly in
order; when every child before position k succeeds and the child at
position k fails, exactly the first k+1 lists are spawned, in order,
and the resulting error is that child's failure; when it is a
SpawnError with nonzero status the derived exit code is that status. -/
theorem c3_each_sequential_stop (lg ls : String → Bool) (fs : String → List String)
    (child : List String → Option JsError) (args : List String) (opts : GlobOpts)
    (values : List (List String)) (k : Nat) (e : JsError)
    (hok : (globArgsEach lg ls fs args opts).1 = Except.ok values)
    (hk : k < values.length)
    (hpre : ∀ j, j < k → child (values.getD j []) = none)
    (hfail : child (values.getD k []) = some e) :
    mainEach lg ls fs child args opts = (values.take (k + 1), some e)
  ∧ ∀ s, e = JsError.spawnError s → s ≠ 0 → exitOf (some e) = s := by
  constructor
  · simp [mainEach, hok, runEachLoop_first_fail child values k e hk hpre hfail]
  · intro s hs hs0
    subst hs
    simp [exitOf, errExitCode, hs0]

/-- Claim C3 witness: three matches, the second child fails with status
2; only the first two argument lists are spawned and the derived exit
code is 2. -/
theorem c3_witness :
    (globArgsEach wStar wStar wFs3 ["*"] wOpts).1 = Except.ok [["a"], ["b"], ["c"]]
  ∧ (1 < ([["a"], ["b"], ["c"]] : List (List String)).length)
  ∧ (∀ j, j < 1 → wChildFailB (([["a"], ["b"], ["c"]] : List (List String)).getD j []) = none)
  ∧ wChildFailB (([["a"], ["b"], ["c"]] : List (List String)).getD 1 [])
      = some (JsError.spawnError 2)
  ∧ mainEach wStar wStar wFs3 wChildFailB ["*"] wOpts
      = ([["a"], ["b"]], some (JsError.spawnError 2))
  ∧ exitOf (some (JsError.spawnError 2)) = 2 := by
  have h := c3_each_sequential_stop wStar wStar wFs3 wChildFailB ["*"] wOpts
    [["a"], ["b"], ["c"]] 1 (JsError.spawnError 2) rfl (by decide)
    (by decide) (by decide)
  exact ⟨rfl, by decide, by decide, by decide, h.1, h.2 2 rfl (by decide)⟩

/-- Claim C4: the process exit code is 0 when the run produced no
error (in particular, in each mode, when every spawned child
succeeded); it is the child status s for a SpawnError with nonzero s;
and it is 1 for a configuration error or a generic spawn failure. -/
theorem c4_exit_code_mapping (lg ls : String → Bool) (fs : String → List String)
    (child : List String → Option JsError) (parseErr : Option String) (p : ParsedArgs) :
    ((mainRun lg ls fs child parseErr p).2 = none
       → (main lg ls fs child parseErr p).exit = 0)
  ∧ (∀ s, s ≠ 0 → (mainRun lg ls fs child parseErr p).2 = some (JsError.spawnError s)
       → (main lg ls fs child parseErr p).exit = s)
  ∧ (∀ m, (mainRun lg ls fs child parseErr p).2 = some (JsError.configError m)
       → (main lg ls fs child parseErr p).exit = 1)
  ∧ (∀ m, (mainRun lg ls fs child parseErr p).2 = some (JsError.genericError m)
       → (main lg ls fs child parseErr p).exit = 1)
  ∧ (p.each = true → parseErr = none →
       ∀ values, (globArgsEach lg ls fs (parseArgv p).args (parseArgv p).globOpts).1
           = Except.ok values →
         (∀ v ∈ values, child v = none) → (main lg ls fs child parseErr p).exit = 0) := by
  have hexit : (main lg ls fs child parseErr p).exit
      = exitOf (mainRun lg ls fs child parseErr p).2 := rfl
  refine ⟨?_, ?_, ?_, ?_, ?_⟩
  · intro h; rw [hexit, h]; rfl
  · intro s hs h; rw [hexit, h]; simp [exitOf, errExitCode, hs]
  · intro m h; rw [hexit, h]; rfl
  · intro m h; rw [hexit, h]; rfl
  · intro he hpe values hok hall
    subst hpe
    have hpe2 : (parseArgv p).each = true := he
    have hrun : mainRun lg ls fs child none p = (values, none) := by
      simp [mainRun, hpe2, mainEach, hok, runEachLoop_all_ok child values hall]
    rw [hexit, hrun]
    rfl

/-- Claim C4 witness: a bulk run whose child exits with status 3 gives
process exit code 3, and the same run with a succeeding child gives 0. -/
theorem c4_witness :
    (3 ≠ 0)
  ∧ (mainRun wGlob2 wGlob2 wFsEmpty wChild3 none wPBulk).2 = some (JsError.spawnError 3)
  ∧ (main wGlob2 wGlob2 wFsEmpty wChild3 none wPBulk).exit = 3
  ∧ (mainRun wGlob2 wGlob2 wFsEmpty wChildOk none wPBulk).2 = none
  ∧ (main wGlob2 wGlob2 wFsEmpty wChildOk none wPBulk).exit = 0 := by
  refine ⟨by decide, by decide, ?_, by decide, ?_⟩
  · exact (c4_exit_code_mapping wGlob2 wGlob2 wFsEmpty wChild3 none wPBulk).2.1 3
      (by decide) (by decide)
  · exact (c4_exit_code_mapping wGlob2 wGlob2 wFsEmpty wChildOk none wPBulk).1 (by decide)

/-- Claim C7: for every nonempty event stream a child can emit, the
completion callback is invoked exactly once, with the generic error
when the first event is the error event, success when the first event
is a close with status zero (or a null status), and a SpawnError with
the status when the first event is a close with nonzero status; later
events, including a close following an error, are discarded. -/
theorem c7_callback_once (events : List ChildEvent) (h : events ≠ []) :
    (spawnCommand events).length = 1
  ∧ (∀ m rest, events = ChildEvent.error m :: rest →
      spawnCommand events = [some (JsError.genericError m)])
  ∧ (∀ rest, events = ChildEvent.close (some 0) :: rest → spawnCommand events = [none])
  ∧ (∀ rest, events = ChildEvent.close none :: rest → spawnCommand events = [none])
  ∧ (∀ s rest, events = ChildEvent.close (some (s + 1)) :: rest →
      spawnCommand events = [some (JsError.spawnError (s + 1))]) := by
  refine ⟨?_, ?_, ?_, ?_, ?_⟩
  · cases events with
    | nil => exact absurd rfl h
    | cons e rest => simp [spawnCommand, onetime, handlerCalls]
  · intro m rest hev; subst hev; simp [spawnCommand, onetime, handlerCalls]
  · intro rest hev; subst hev; simp [spawnCommand, onetime, handlerCalls, onCloseCb]
  · intro rest hev; subst hev; simp [spawnCommand, onetime, handlerCalls, onCloseCb]
  · intro s rest hev; subst hev; simp [spawnCommand, onetime, handlerCalls, onCloseCb]

/-- Claim C7 witness: a child that emits both an error event and a
close event delivers exactly one completion, the generic error. -/
theorem c7_witness :
    ([ChildEvent.error "spawn failure", ChildEvent.close (some 1)] ≠ ([] : List ChildEvent))
  ∧ (spawnCommand [ChildEvent.error "spawn failure", ChildEvent.close (some 1)]).length = 1
  ∧ spawnCommand [ChildEvent.error "spawn failure", ChildEvent.close (some 1)]
      = [some (JsError.genericError "spawn failure")] := by
  have h := c7_callback_once [ChildEvent.error "spawn failure", ChildEvent.close (some 1)]
    (by decide)
  exact ⟨by decide, h.1, h.2.1 "spawn failure" [ChildEvent.close (some 1)] rfl⟩

/-- Claim C10: every SpawnError the process runner delivers carries a
nonzero status, so the exit-code computation never falls back to the
default code 1 on a SpawnError. -/
theorem c10_spawn_error_nonzero (events : List ChildEvent) (d : Option JsError)
    (hd : d ∈ spawnCommand events) :
    ∀ s, d = some (JsError.spawnError s) → 0 < s ∧ errExitCode (JsError.spawnError s) = s := by
  intro s hs
  subst hs
  cases events with
  | nil => simp [spawnCommand, onetime, handlerCalls] at hd
  | cons e rest =>
    simp [spawnCommand, onetime, handlerCalls] at hd
    cases e with
    | error m => simp at hd
    | close st =>
      match st with
      | none => simp [onCloseCb] at hd
      | some 0 => simp [onCloseCb] at hd
      | some (k + 1) =>
        simp [onCloseCb] at hd
        obtain ⟨rfl⟩ := hd
        exact ⟨Nat.succ_pos k, by simp [errExitCode]⟩

/-- Claim C10 witness: a close event with status 7 delivers a
SpawnError whose status 7 is positive and maps to exit code 7. -/
theorem c10_witness :
    (some (JsError.spawnError 7) ∈ spawnCommand [ChildEvent.close (some 7)])
  ∧ 0 < 7 ∧ errExitCode (JsError.spawnError 7) = 7 := by
  refine ⟨by decide, ?_⟩
  exact c10_spawn_error_nonzero [ChildEvent.close (some 7)]
    (some (JsError.spawnError 7)) (by decide) 7 rfl

/-- Claim C8 counterexample: the bulk builder mutates the options
object after construction in a field other than the ignore list: on
options constructed with nonull false it leaves the ignore list
unchanged but flips nonull to true, so the options value differs from
the constructed one. -/
theorem c8_counterexample :
    ((globArgs (fun _ => []) ["a"]
        { nodir := false, ignore := [], nonull := false, extra := [] }).2).ignore
      = ({ nodir := false, ignore := [], nonull := false, extra := [] } : GlobOpts).ignore
  ∧ ((globArgs (fun _ => []) ["a"]
        { nodir := false, ignore := [], nonull := false, extra := [] }).2).nonull
      ≠ ({ nodir := false, ignore := [], nonull := false, extra := [] } : GlobOpts).nonull
  ∧ (globArgs (fun _ => []) ["a"]
        { nodir := false, ignore := [], nonull := false, extra := [] }).2
      ≠ ({ nodir := false, ignore := [], nonull := false, extra := [] } : GlobOpts) := by
  refine ⟨rfl, by decide, by decide⟩

/-- Claim C8 amended: after construction, the only GlobOptions fields
ever modified are the ignore list (extended during parsing when the
node flag is set) and the nonull no-match flag, which both argument
builders overwrite to true; every other field is unchanged by both
builders, and the process runner takes no options at all. -/
theorem c8_amended_opts_frame (lg ls : String → Bool) (fs : String → List String)
    (args : List String) (opts : GlobOpts) :
    ((globArgs fs args opts).2).nodir = opts.nodir
  ∧ ((globArgs fs args opts).2).ignore = opts.ignore
  ∧ ((globArgs fs args opts).2).extra = opts.extra
  ∧ ((globArgs fs args opts).2).nonull = true
  ∧ ((globArgsEach lg ls fs args opts).2).nodir = opts.nodir
  ∧ ((globArgsEach lg ls fs args opts).2).ignore = opts.ignore
  ∧ ((globArgsEach lg ls fs args opts).2).extra = opts.extra
  ∧ ((globArgsEach lg ls fs args opts).2).nonull = true := by
  have hga : (globArgs fs args opts).2 = { opts with nonull := true } := rfl
  have hgae : (globArgsEach lg ls fs args opts).2 = { opts with nonull := true } := by
    simp only [globArgsEach]
    split
    · rfl
    · split
      · rfl
      · split <;> rfl
  rw [hga, hgae]
  exact ⟨rfl, rfl, rfl, rfl, rfl, rfl, rfl, rfl⟩

/-- Claim C9: two runs that differ only in the verbosity count spawn
the same argument lists for the same command and produce the same exit
code; only the diagnostic log entries may differ. -/
theorem c9_verbosity_noninterference (lg ls : String → Bool) (fs : String → List String)
    (child : List String → Option JsError) (parseErr : Option String) (p : ParsedArgs)
    (v1 v2 : Nat) :
    (main lg ls fs child parseErr { p with verbose := v1 }).spawned
      = (main lg ls fs child parseErr { p with verbose := v2 }).spawned
  ∧ (main lg ls fs child parseErr { p with verbose := v1 }).exit
      = (main lg ls fs child parseErr { p with verbose := v2 }).exit
  ∧ (main lg ls fs child parseErr { p with verbose := v1 }).cmd
      = (main lg ls fs child parseErr { p with verbose := v2 }).cmd := by
  have hrun : mainRun lg ls fs child parseErr { p with verbose := v1 }
      = mainRun lg ls fs child parseErr { p with verbose := v2 } := rfl
  refine ⟨?_, ?_, rfl⟩
  · show (mainRun lg ls fs child parseErr { p with verbose := v1 }).1
      = (mainRun lg ls fs child parseErr { p with verbose := v2 }).1
    rw [hrun]
  · show exitOf (mainRun lg ls fs child parseErr { p with verbose := v1 }).2
      = exitOf (mainRun lg ls fs child parseErr { p with verbose := v2 }).2
    rw [hrun]

end Globstar
